import Mathlib

/-!
Verification development for the Synapse Spark metadata inventory tool
(`tooling/fetch_all_synapse_spark_metadata.py`).

The Python script manipulates JSON-shaped dictionaries throughout, so the
embedding is built on a small JSON value type `JVal` together with the
dictionary operations the script uses (`dict.get` with a default, `key in
dict`, Python truthiness).  Network calls are modelled by an environment of
oracle functions returning `Except String _` (an `Except.error` models the
underlying HTTP library raising a transport exception; an `Except.ok`
response carries the HTTP status code and JSON body, so the script's
non-success-status handling is modelled separately from exceptions).
-/

set_option autoImplicit false

namespace SynapseMeta

/-- JSON values, as produced by `json.load` / `response.json()` in the script.
Numbers are modelled as integers (no claim concerns fractional values). -/
inductive JVal where
  | null
  | bool (b : Bool)
  | num (n : Int)
  | str (s : String)
  | arr (xs : List JVal)
  | obj (fields : List (String × JVal))
  deriving Inhabited

namespace JVal

mutual

/-- Decidable equality on JSON values (Python `==` on parsed JSON). -/
def decEq : (a b : JVal) → Decidable (a = b)
  | .null, .null => isTrue rfl
  | .bool a, .bool b =>
      if h : a = b then isTrue (by rw [h]) else isFalse (fun hh => h (JVal.bool.inj hh))
  | .num a, .num b =>
      if h : a = b then isTrue (by rw [h]) else isFalse (fun hh => h (JVal.num.inj hh))
  | .str a, .str b =>
      if h : a = b then isTrue (by rw [h]) else isFalse (fun hh => h (JVal.str.inj hh))
  | .arr xs, .arr ys =>
      match decEqList xs ys with
      | isTrue h => isTrue (by rw [h])
      | isFalse h => isFalse (fun hh => h (JVal.arr.inj hh))
  | .obj xs, .obj ys =>
      match decEqFields xs ys with
      | isTrue h => isTrue (by rw [h])
      | isFalse h => isFalse (fun hh => h (JVal.obj.inj hh))
  | .null, .bool _ => isFalse (fun h => JVal.noConfusion h)
  | .null, .num _ => isFalse (fun h => JVal.noConfusion h)
  | .null, .str _ => isFalse (fun h => JVal.noConfusion h)
  | .null, .arr _ => isFalse (fun h => JVal.noConfusion h)
  | .null, .obj _ => isFalse (fun h => JVal.noConfusion h)
  | .bool _, .null => isFalse (fun h => JVal.noConfusion h)
  | .bool _, .num _ => isFalse (fun h => JVal.noConfusion h)
  | .bool _, .str _ => isFalse (fun h => JVal.noConfusion h)
  | .bool _, .arr _ => isFalse (fun h => JVal.noConfusion h)
  | .bool _, .obj _ => isFalse (fun h => JVal.noConfusion h)
  | .num _, .null => isFalse (fun h => JVal.noConfusion h)
  | .num _, .bool _ => isFalse (fun h => JVal.noConfusion h)
  | .num _, .str _ => isFalse (fun h => JVal.noConfusion h)
  | .num _, .arr _ => isFalse (fun h => JVal.noConfusion h)
  | .num _, .obj _ => isFalse (fun h => JVal.noConfusion h)
  | .str _, .null => isFalse (fun h => JVal.noConfusion h)
  | .str _, .bool _ => isFalse (fun h => JVal.noConfusion h)
  | .str _, .num _ => isFalse (fun h => JVal.noConfusion h)
  | .str _, .arr _ => isFalse (fun h => JVal.noConfusion h)
  | .str _, .obj _ => isFalse (fun h => JVal.noConfusion h)
  | .arr _, .null => isFalse (fun h => JVal.noConfusion h)
  | .arr _, .bool _ => isFalse (fun h => JVal.noConfusion h)
  | .arr _, .num _ => isFalse (fun h => JVal.noConfusion h)
  | .arr _, .str _ => isFalse (fun h => JVal.noConfusion h)
  | .arr _, .obj _ => isFalse (fun h => JVal.noConfusion h)
  | .obj _, .null => isFalse (fun h => JVal.noConfusion h)
  | .obj _, .bool _ => isFalse (fun h => JVal.noConfusion h)
  | .obj _, .num _ => isFalse (fun h => JVal.noConfusion h)
  | .obj _, .str _ => isFalse (fun h => JVal.noConfusion h)
  | .obj _, .arr _ => isFalse (fun h => JVal.noConfusion h)

/-- Decidable equality on lists of JSON values. -/
def decEqList : (xs ys : List JVal) → Decidable (xs = ys)
  | [], [] => isTrue rfl
  | [], _ :: _ => isFalse (fun h => List.noConfusion h)
  | _ :: _, [] => isFalse (fun h => List.noConfusion h)
  | x :: xs, y :: ys =>
      match decEq x y with
      | isFalse h => isFalse (fun hh => h (List.cons.inj hh).1)
      | isTrue h1 =>
        match decEqList xs ys with
        | isTrue h2 => isTrue (by rw [h1, h2])
        | isFalse h => isFalse (fun hh => h (List.cons.inj hh).2)

/-- Decidable equality on field lists of JSON objects. -/
def decEqFields : (xs ys : List (String × JVal)) → Decidable (xs = ys)
  | [], [] => isTrue rfl
  | [], _ :: _ => isFalse (fun h => List.noConfusion h)
  | _ :: _, [] => isFalse (fun h => List.noConfusion h)
  | (k, v) :: xs, (k2, v2) :: ys =>
      if hk : k = k2 then
        match decEq v v2 with
        | isFalse h =>
            isFalse (fun hh => h (congrArg Prod.snd (List.cons.inj hh).1))
        | isTrue h1 =>
          match decEqFields xs ys with
          | isTrue h2 => isTrue (by rw [hk, h1, h2])
          | isFalse h => isFalse (fun hh => h (List.cons.inj hh).2)
      else
        isFalse (fun hh => hk (congrArg Prod.fst (List.cons.inj hh).1))

end

instance : DecidableEq JVal := decEq

/-- First-occurrence lookup in an object's field list (Python dict lookup;
`json.load` produces unique keys, for which first-occurrence is exact). -/
def lookupField : List (String × JVal) → String → Option JVal
  | [], _ => none
  | (k, v) :: rest, key => if k = key then some v else lookupField rest key

/-- Python `d.get(key, default)` on a JSON value.  On a non-object the script
never calls `.get`, so the default is returned there as well. -/
def getD (v : JVal) (key : String) (default : JVal) : JVal :=
  match v with
  | .obj fields => (lookupField fields key).getD default
  | _ => default

/-- Python `d.get(key)` (missing key yields `None`). -/
def get (v : JVal) (key : String) : JVal :=
  v.getD key JVal.null

/-- Python `key in d` for a dict. -/
def hasKey (v : JVal) (key : String) : Bool :=
  match v with
  | .obj fields => (lookupField fields key).isSome
  | _ => false

/-- Python truthiness of a JSON value (`if pool:` etc.): `None`, `False`,
`0`, `""`, `[]` and `{}` are falsy, everything else truthy. -/
def toBool : JVal → Bool
  | .null => false
  | .bool b => b
  | .num n => n != 0
  | .str s => !(s == "")
  | .arr xs => !xs.isEmpty
  | .obj fields => !fields.isEmpty

/-- Coerce a JSON value to a Python list for iteration; the script only
iterates values that are JSON arrays (the `value` field of list responses). -/
def asList : JVal → List JVal
  | .arr xs => xs
  | _ => []

end JVal

mutual

/-- Python `repr()` of a nested value (strings get quoted, containers
render recursively). -/
def pyStrRepr : JVal → String
  | .null => "None"
  | .bool true => "True"
  | .bool false => "False"
  | .num n => toString n
  | .str s => "\x27" ++ s ++ "\x27"
  | .arr xs => "[" ++ pyStrList xs ++ "]"
  | .obj fields => "\x7b" ++ pyStrFields fields ++ "\x7d"

/-- Comma-separated rendering of array elements. -/
def pyStrList : List JVal → String
  | [] => ""
  | [x] => pyStrRepr x
  | x :: xs => pyStrRepr x ++ ", " ++ pyStrList xs

/-- Comma-separated rendering of object fields. -/
def pyStrFields : List (String × JVal) → String
  | [] => ""
  | (k, v) :: rest =>
      "\x27" ++ k ++ "\x27: " ++ pyStrRepr v ++
        (if rest.isEmpty then "" else ", " ++ pyStrFields rest)

end

/-- Python `str()` of a JSON value, used only inside f-string interpolation
(the notebook `format` field).  Container rendering approximates `repr`. -/
def pyStr : JVal → String
  | .null => "None"
  | .bool true => "True"
  | .bool false => "False"
  | .num n => toString n
  | .str s => s
  | .arr xs => "[" ++ pyStrList xs ++ "]"
  | .obj fields => "\x7b" ++ pyStrFields fields ++ "\x7d"

/-- Splitting a character list at every occurrence of a separator (Python
`str.split` with a one-character separator keeps empty chunks, and an empty
string yields `[""]`). -/
def splitChar (sep : Char) : List Char → List (List Char)
  | [] => [[]]
  | c :: rest =>
      let r := splitChar sep rest
      if c = sep then [] :: r
      else
        match r with
        | [] => [[c]]
        | h :: t => (c :: h) :: t

/-- Python `resource_id.split("/")`. -/
def pySplitSlash (s : String) : List String :=
  (splitChar (Char.ofNat 47) s.data).map (fun cs => String.mk cs)

/-- `parse_resource_group_from_id` (source lines 91–98): split the resource id
on `/`, look for the segment `"resourceGroups"` and return the following
segment; `list.index` raising `ValueError` (marker absent) and the indexing
raising `IndexError` (marker is the last segment) are both caught and yield
`None`, modelled by `Option`. -/
def parse_resource_group_from_id (resource_id : String) : Option String :=
  let parts := pySplitSlash resource_id
  match parts.indexOf? "resourceGroups" with
  | none => none
  | some i => parts.get? (i + 1)

/-- A workspace object as returned by the management SDK: `ws.name`, `ws.id`
and `ws.location` are attributes, `ws.as_dict()` yields the raw JSON dict. -/
structure Workspace where
  name : String
  id : String
  location : String
  asDict : JVal
  deriving DecidableEq, Inhabited

/-- `extract_workspace_details` (source lines 100–139). -/
def extract_workspace_details (ws : Workspace) : JVal :=
  let props := ws.asDict.getD "properties" (.obj [])
  let pe_connections : List JVal :=
    (props.getD "privateEndpointConnections" (.arr [])).asList.map (fun pe =>
      let pe_props := pe.getD "properties" (.obj [])
      let pe_endpoint := pe_props.getD "privateEndpoint" (.obj [])
      let pe_link_state := pe_props.getD "privateLinkServiceConnectionState" (.obj [])
      .obj [
        ("name", pe.get "name"),
        ("id", pe.get "id"),
        ("type", pe.get "type"),
        ("provisioning_state", pe_props.get "provisioningState"),
        ("private_endpoint_id", pe_endpoint.get "id"),
        ("link_status", pe_link_state.get "status"),
        ("actions_required", pe_link_state.get "actionsRequired"),
        ("description", pe_link_state.get "description")
      ])
  let mvs := props.getD "managedVirtualNetworkSettings" (.obj [])
  let managed_vnet_settings : JVal :=
    .obj [
      ("allowed_aad_tenants", mvs.getD "allowedAadTenantIdsForLinking" (.arr [])),
      ("linked_access_check", mvs.getD "linkedAccessCheckOnTargetResource" (.bool false)),
      ("prevent_data_exfiltration", mvs.getD "preventDataExfiltration" (.bool false))
    ]
  .obj [
    ("name", .str ws.name),
    ("id", .str ws.id),
    ("location", .str ws.location),
    ("provisioning_state", props.get "provisioningState"),
    ("managed_resource_group", props.get "managedResourceGroupName"),
    ("workspace_uid", props.get "workspaceUID"),
    ("private_endpoint_connections", .arr pe_connections),
    ("managed_vnet_settings", managed_vnet_settings)
  ]

/-- `extract_notebook_details` (source lines 141–162).  The optional
`big_data_pool` and `session_properties` blocks are emitted only when the
corresponding input sub-dict is truthy (`{...} if pool else None`): an input
key that is absent, or present but bound to an empty dict, both yield the
falsy `{}` and hence `None` in the output. -/
def extract_notebook_details (notebook : JVal) : JVal :=
  let props := notebook.getD "properties" (.obj [])
  let pool := props.getD "bigDataPool" (.obj [])
  let session := props.getD "sessionProperties" (.obj [])
  .obj [
    ("name", notebook.get "name"),
    ("description", props.get "description"),
    ("format", .str ("v" ++ pyStr (props.get "nbformat") ++ "." ++
      pyStr (props.get "nbformat_minor"))),
    ("big_data_pool",
      if pool.toBool then
        .obj [
          ("reference_name", pool.get "referenceName"),
          ("type", pool.get "type")
        ]
      else .null),
    ("session_properties",
      if session.toBool then
        .obj [
          ("driver_memory", session.get "driverMemory"),
          ("driver_cores", session.get "driverCores"),
          ("executor_memory", session.get "executorMemory"),
          ("executor_cores", session.get "executorCores"),
          ("num_executors", session.get "numExecutors")
        ]
      else .null)
  ]

/-- `extract_big_data_pool_details` (source lines 164–198). -/
def extract_big_data_pool_details (pool : JVal) : JVal :=
  let props := pool.getD "properties" (.obj [])
  let auto_scale := props.getD "autoScale" (.obj [])
  let auto_pause := props.getD "autoPause" (.obj [])
  let dyn_alloc := props.getD "dynamicExecutorAllocation" (.obj [])
  let lib_req := props.getD "libraryRequirements" (.obj [])
  .obj [
    ("name", pool.get "name"),
    ("spark_version", props.get "sparkVersion"),
    ("provisioning_state", props.get "provisioningState"),
    ("node_count", props.get "nodeCount"),
    ("node_size", props.get "nodeSize"),
    ("node_size_family", props.get "nodeSizeFamily"),
    ("auto_scale",
      if auto_scale.toBool then
        .obj [
          ("enabled", auto_scale.get "enabled"),
          ("min_node_count", auto_scale.get "minNodeCount"),
          ("max_node_count", auto_scale.get "maxNodeCount")
        ]
      else .null),
    ("auto_pause",
      if auto_pause.toBool then
        .obj [
          ("enabled", auto_pause.get "enabled"),
          ("delay_minutes", auto_pause.get "delayInMinutes")
        ]
      else .null),
    ("dynamic_executor_allocation",
      if dyn_alloc.toBool then
        .obj [
          ("enabled", dyn_alloc.get "enabled"),
          ("min_executors", dyn_alloc.get "minExecutors"),
          ("max_executors", dyn_alloc.get "maxExecutors")
        ]
      else .null),
    ("library_requirements",
      if lib_req.toBool then
        .obj [
          ("filename", lib_req.get "filename"),
          ("last_updated", lib_req.get "time")
        ]
      else .null),
    ("custom_libraries_count", .num (props.getD "customLibraries" (.arr [])).asList.length)
  ]

/-- `extract_spark_job_definition_details` (source lines 200–235). -/
def extract_spark_job_definition_details (job_def : JVal) : JVal :=
  let props := job_def.getD "properties" (.obj [])
  let pool := props.getD "targetBigDataPool" (.obj [])
  let folder := props.getD "folder" (.obj [])
  let job_props := props.getD "jobProperties" (.obj [])
  .obj [
    ("name", job_def.get "name"),
    ("id", job_def.get "id"),
    ("type", job_def.get "type"),
    ("etag", job_def.get "etag"),
    ("description", props.get "description"),
    ("required_spark_version", props.get "requiredSparkVersion"),
    ("target_big_data_pool",
      if pool.toBool then
        .obj [
          ("reference_name", pool.get "referenceName"),
          ("type", pool.get "type")
        ]
      else .null),
    ("folder", if folder.toBool then folder.get "name" else .null),
    ("job_properties",
      if job_props.toBool then
        .obj [
          ("name", job_props.get "name"),
          ("file", job_props.get "file"),
          ("class_name", job_props.get "className"),
          ("language", props.get "language"),
          ("driver_memory", job_props.get "driverMemory"),
          ("driver_cores", job_props.get "driverCores"),
          ("executor_memory", job_props.get "executorMemory"),
          ("executor_cores", job_props.get "executorCores"),
          ("num_executors", job_props.get "numExecutors"),
          ("args", job_props.getD "args" (.arr [])),
          ("jars", job_props.getD "jars" (.arr [])),
          ("py_files", job_props.getD "pyFiles" (.arr [])),
          ("files", job_props.getD "files" (.arr [])),
          ("archives", job_props.getD "archives" (.arr []))
        ]
      else .null)
  ]

/-! ## Aggregators

The notebook/job frequency-count block is duplicated verbatim in the source
at lines 365–383 (`summarize_subscription`), 414–431 (`write_to_json`) and
505–522 (`write_consolidated_json`); it is embedded once here.  The Python
`defaultdict(int)` tally (later copied with `dict(...)`) is modelled as an
insertion-ordered association list: incrementing an existing key updates its
entry in place, a new key is appended with count 1. -/

/-- Resolution of one notebook's `spark_version` label (source lines
366–377): start from `"No pool attached"`; when the notebook's `bigDataPool`
dict is truthy and carries a `referenceName`, look for the first pool in the
workspace's pool list whose `name` equals that reference, and when found take
its `properties.sparkVersion`, defaulting to `"Unknown"`. -/
def notebook_spark_version (pools : List JVal) (nb : JVal) : JVal :=
  let props := nb.getD "properties" (.obj [])
  let pool := props.getD "bigDataPool" (.obj [])
  if pool.toBool && pool.hasKey "referenceName" then
    let pool_name := pool.get "referenceName"
    match pools.find? (fun p => p.get "name" == pool_name) with
    | some matching_pool =>
        (matching_pool.getD "properties" (.obj [])).getD "sparkVersion" (.str "Unknown")
    | none => .str "No pool attached"
  else .str "No pool attached"

/-- One job definition's runtime label (source lines 381–383):
`job.get("properties", {}).get("requiredSparkVersion", "Unknown")`. -/
def job_runtime (job : JVal) : JVal :=
  (job.getD "properties" (.obj [])).getD "requiredSparkVersion" (.str "Unknown")

/-- The `pool` local of the aggregation block (source line 369):
`nb.get("properties", {}).get("bigDataPool", {})`. -/
def notebook_pool_ref (nb : JVal) : JVal :=
  (nb.getD "properties" (.obj [])).getD "bigDataPool" (.obj [])

/-- `counter[k] += 1` on a `defaultdict(int)` modelled as an
insertion-ordered association list. -/
def bumpCount (m : List (JVal × Nat)) (k : JVal) : List (JVal × Nat) :=
  match m with
  | [] => [(k, 1)]
  | (k2, n) :: rest => if k2 = k then (k2, n + 1) :: rest else (k2, n) :: bumpCount rest k

/-- The `nb_by_runtime` tally of a workspace's notebook list. -/
def count_notebooks_by_runtime (pools notebooks : List JVal) : List (JVal × Nat) :=
  notebooks.foldl (fun m nb => bumpCount m (notebook_spark_version pools nb)) []

/-- The `jobs_by_runtime` tally of a workspace's job-definition list. -/
def count_jobs_by_runtime (jobs : List JVal) : List (JVal × Nat) :=
  jobs.foldl (fun m job => bumpCount m (job_runtime job)) []

/-- Reading a frequency map as a mapping: the count stored for a label, or
`none` when the label is absent. -/
def mapLookup (m : List (JVal × Nat)) (k : JVal) : Option Nat :=
  match m with
  | [] => none
  | (k2, n) :: rest => if k2 = k then some n else mapLookup rest k

/-- Sum of all counts of a frequency map. -/
def sumValues (m : List (JVal × Nat)) : Nat :=
  (m.map Prod.snd).sum

/-! ## Fetchers and the remote environment

A remote call either raises a transport exception (`Except.error`, never
caught inside a fetcher) or returns an HTTP response with a status code and
JSON body.  The script's management SDK listing call is modelled directly as
raising or returning the workspace list. -/

/-- Sequencing of a loop body that can raise, over a list (`for ws in
workspaces:` with exceptions propagating): stops at the first raise. -/
def mapME {α β : Type} (f : α → Except String β) : List α → Except String (List β)
  | [] => .ok []
  | x :: xs => do
      let y ← f x
      let ys ← mapME f xs
      pure (y :: ys)

/-- An HTTP response as seen by `requests.get`. -/
structure HttpResponse where
  status : Nat
  body : JVal
  deriving DecidableEq, Inhabited

/-- The remote services a run talks to, as a deterministic oracle: the
management-plane workspace listing keyed by subscription id, and the three
child listings keyed by the arguments the script passes them. -/
structure Env where
  workspacesResult : String → Except String (List Workspace)
  notebooksResponse : String → String → Option String → Except String HttpResponse
  poolsResponse : String → Option String → String → Except String HttpResponse
  jobsResponse : String → Except String HttpResponse

/-- `list_workspaces` (source lines 47–53): the SDK call returns the listing
or raises. -/
def list_workspaces (env : Env) (subscription_id : String) :
    Except String (List Workspace) :=
  env.workspacesResult subscription_id

/-- `list_notebooks` (source lines 55–65): a non-200 status is logged and
yields `[]`; otherwise the response body's `value` array (default `[]`) is
returned.  A transport exception propagates. -/
def list_notebooks (env : Env) (subscription_id workspace_name : String)
    (resource_group : Option String) : Except String (List JVal) :=
  match env.notebooksResponse subscription_id workspace_name resource_group with
  | .error e => .error e
  | .ok response =>
      if response.status != 200 then .ok []
      else .ok (response.body.getD "value" (.arr [])).asList

/-- `list_big_data_pools` (source lines 67–77): same failure policy as
`list_notebooks`. -/
def list_big_data_pools (env : Env) (subscription_id : String)
    (resource_group : Option String) (workspace_name : String) :
    Except String (List JVal) :=
  match env.poolsResponse subscription_id resource_group workspace_name with
  | .error e => .error e
  | .ok response =>
      if response.status != 200 then .ok []
      else .ok (response.body.getD "value" (.arr [])).asList

/-- `list_spark_job_definitions` (source lines 79–89): same failure policy. -/
def list_spark_job_definitions (env : Env) (workspace_name : String) :
    Except String (List JVal) :=
  match env.jobsResponse workspace_name with
  | .error e => .error e
  | .ok response =>
      if response.status != 200 then .ok []
      else .ok (response.body.getD "value" (.arr [])).asList

/-! ## JSON export shapes -/

/-- The `notebooks` / `spark_job_definitions` block of a per-workspace
record: `{count, by_runtime, details}`. -/
structure RuntimeBlock where
  count : Nat
  by_runtime : List (JVal × Nat)
  details : List JVal
  deriving DecidableEq, Inhabited

/-- The `big_data_pools` block: `{count, details}`. -/
structure PoolBlock where
  count : Nat
  details : List JVal
  deriving DecidableEq, Inhabited

/-- The redundant per-workspace `summary` block. -/
structure WorkspaceSummaryBlock where
  spark_pools : Nat
  notebooks : Nat
  notebooks_by_runtime : List (JVal × Nat)
  spark_job_definitions : Nat
  jobs_by_runtime : List (JVal × Nat)
  deriving DecidableEq, Inhabited

/-- One `workspace_data` record of the JSON exports. -/
structure WorkspaceData where
  workspace_details : JVal
  resource_group : Option String
  notebooks : RuntimeBlock
  big_data_pools : PoolBlock
  spark_job_definitions : RuntimeBlock
  summary : WorkspaceSummaryBlock
  deriving DecidableEq, Inhabited

/-- The per-workspace record builder: the body of the `for ws in workspaces`
loop, written identically in `write_to_json` (source lines 406–460) and
`write_consolidated_json` (source lines 497–551). -/
def build_workspace_data (ws : Workspace) (resource_group : Option String)
    (notebooks pools jobs : List JVal) : WorkspaceData :=
  { workspace_details := extract_workspace_details ws
    resource_group := resource_group
    notebooks :=
      { count := notebooks.length
        by_runtime := count_notebooks_by_runtime pools notebooks
        details := notebooks.map extract_notebook_details }
    big_data_pools :=
      { count := pools.length
        details := pools.map extract_big_data_pool_details }
    spark_job_definitions :=
      { count := jobs.length
        by_runtime := count_jobs_by_runtime jobs
        details := jobs.map extract_spark_job_definition_details }
    summary :=
      { spark_pools := pools.length
        notebooks := notebooks.length
        notebooks_by_runtime := count_notebooks_by_runtime pools notebooks
        spark_job_definitions := jobs.length
        jobs_by_runtime := count_jobs_by_runtime jobs } }

/-- The three child fetches and record build for one workspace, shared by
both export writers (source lines 407–460 and 498–551): any transport
exception propagates. -/
def fetch_workspace_data (env : Env) (subscription_id : String)
    (ws : Workspace) : Except String WorkspaceData := do
  let resource_group := parse_resource_group_from_id ws.id
  let notebooks ← list_notebooks env subscription_id ws.name resource_group
  let pools ← list_big_data_pools env subscription_id resource_group ws.name
  let jobs ← list_spark_job_definitions env ws.name
  pure (build_workspace_data ws resource_group notebooks pools jobs)

/-- The single-subscription JSON export (`scan_timestamp` and the output
file name are outside the model). -/
structure SubscriptionExport where
  subscription_id : String
  total_workspaces : Nat
  workspaces : List WorkspaceData
  deriving DecidableEq, Inhabited

/-- `write_to_json` (source lines 390–467): an uncaught exception from any
fetch propagates (there is no try/except in this function). -/
def write_to_json (env : Env) (subscription_id : String) :
    Except String SubscriptionExport := do
  let workspaces ← list_workspaces env subscription_id
  let wdata ← mapME (fetch_workspace_data env subscription_id) workspaces
  pure { subscription_id := subscription_id
         total_workspaces := workspaces.length
         workspaces := wdata }

/-- One entry of the consolidated export's `subscriptions` list: a full
record has no `error` key (`error = none`); an error record carries the
exception message with `total_workspaces = 0` and `workspaces = []`. -/
structure SubscriptionEntry where
  subscription_id : String
  error : Option String
  total_workspaces : Nat
  workspaces : List WorkspaceData
  deriving DecidableEq, Inhabited

/-- The consolidated JSON export. -/
structure ConsolidatedExport where
  total_subscriptions : Nat
  subscriptions : List SubscriptionEntry
  total_workspaces_across_all_subscriptions : Nat
  deriving DecidableEq, Inhabited

/-- The per-subscription `try`/`except` body of `write_consolidated_json`
(source lines 487–563), returning the entry appended to `subscriptions`
together with the amount added to `total_workspaces_across_subs`.  Note the
grand total is incremented immediately after the listing succeeds (line
489), *before* the per-workspace child fetches; an exception raised by a
later child fetch is caught by the same `except`, producing an error record
while the increment survives. -/
def process_consolidated_subscription (env : Env) (subscription_id : String) :
    SubscriptionEntry × Nat :=
  match list_workspaces env subscription_id with
  | .error e =>
      ({ subscription_id := subscription_id, error := some e
         total_workspaces := 0, workspaces := [] }, 0)
  | .ok workspaces =>
      match mapME (fetch_workspace_data env subscription_id) workspaces with
      | .ok wdata =>
          ({ subscription_id := subscription_id, error := none
             total_workspaces := workspaces.length, workspaces := wdata },
           workspaces.length)
      | .error e =>
          ({ subscription_id := subscription_id, error := some e
             total_workspaces := 0, workspaces := [] },
           workspaces.length)

/-- `write_consolidated_json` (source lines 469–573). -/
def write_consolidated_json (env : Env) (subscription_ids : List String) :
    ConsolidatedExport :=
  let acc := subscription_ids.foldl
    (fun acc subscription_id =>
      let r := process_consolidated_subscription env subscription_id
      (acc.1 ++ [r.1], acc.2 + r.2))
    ([], 0)
  { total_subscriptions := subscription_ids.length
    subscriptions := acc.1
    total_workspaces_across_all_subscriptions := acc.2 }

/-- One line of the console summary printed per workspace. -/
structure WorkspaceSummaryLine where
  workspace : String
  spark_pools : Nat
  notebooks_count : Nat
  nb_by_runtime : List (JVal × Nat)
  jobs_count : Nat
  jobs_by_runtime : List (JVal × Nat)
  deriving DecidableEq, Inhabited

/-- The body of `process_subscription`'s detail-print loop for one
workspace (source lines 587–610): the three child fetches, whose transport
exceptions propagate (the print calls are pure console output). -/
def print_workspace_children (env : Env) (subscription_id : String)
    (ws : Workspace) : Except String Unit := do
  let resource_group := parse_resource_group_from_id ws.id
  let _ ← list_notebooks env subscription_id ws.name resource_group
  let _ ← list_big_data_pools env subscription_id resource_group ws.name
  let _ ← list_spark_job_definitions env ws.name
  pure ()

/-- The body of `summarize_subscription`'s per-workspace loop (source lines
359–388): fetch the workspace's children and tally runtimes. -/
def summarize_workspace_line (env : Env) (subscription_id : String)
    (ws : Workspace) : Except String WorkspaceSummaryLine := do
  let resource_group := parse_resource_group_from_id ws.id
  let notebooks ← list_notebooks env subscription_id ws.name resource_group
  let pools ← list_big_data_pools env subscription_id resource_group ws.name
  let jobs ← list_spark_job_definitions env ws.name
  pure { workspace := ws.name
         spark_pools := pools.length
         notebooks_count := notebooks.length
         nb_by_runtime := count_notebooks_by_runtime pools notebooks
         jobs_count := jobs.length
         jobs_by_runtime := count_jobs_by_runtime jobs }

/-- `summarize_subscription` (source lines 353–388): lists the workspaces
again, fetches each workspace's children and tallies runtimes; any
transport exception propagates to the caller. -/
def summarize_subscription (env : Env) (subscription_id : String) :
    Except String (List WorkspaceSummaryLine) := do
  let workspaces ← list_workspaces env subscription_id
  mapME (summarize_workspace_line env subscription_id) workspaces

/-- `process_subscription` (source lines 575–619): returns `False` when the
listing raises (caught by the `except`), when the listing returns an empty
workspace list (`if not workspaces`), or when any later fetch raises (the
detail-print loop fetches each workspace's children, then
`summarize_subscription` repeats the listing and the child fetches);
otherwise `True`. -/
def process_subscription (env : Env) (subscription_id : String) : Bool :=
  let body : Except String Bool := do
    let workspaces ← list_workspaces env subscription_id
    if workspaces.isEmpty then
      pure false
    else do
      let _ ← mapME (print_workspace_children env subscription_id) workspaces
      let _ ← summarize_subscription env subscription_id
      pure true
  match body with
  | .ok b => b
  | .error _ => false

/-- The main loop (source lines 658–667): the subscription ids recorded as
successful are exactly those for which `process_subscription` returned
`True`. -/
def successful_subscriptions (env : Env) (subscription_ids : List String) :
    List String :=
  subscription_ids.filter (fun subscription_id =>
    process_subscription env subscription_id)

/-! ## Config loader -/

/-- The two fatal configuration failures: `json.load` raising
`JSONDecodeError`, and the explicit `ValueError` validations. -/
inductive ConfigError where
  | parseError (msg : String)
  | validationError (msg : String)
  deriving DecidableEq

/-- `load_config` (source lines 24–45) on an existing config file, taking
the outcome of `json.load` as input: a parse failure is re-raised, then the
three shape validations run in source order and the whole config object is
returned when they pass. -/
def load_config (parsed : Except String JVal) : Except ConfigError JVal :=
  match parsed with
  | .error e => .error (.parseError e)
  | .ok config =>
      if !(config.hasKey "subscription_ids") then
        .error (.validationError "Config file must contain subscription_ids key")
      else
        match config.get "subscription_ids" with
        | .arr xs =>
            if xs.length = 0 then
              .error (.validationError "At least one subscription ID must be provided")
            else
              .ok config
        | _ => .error (.validationError "subscription_ids must be a list")

/-! ## Derived predicates used in the statements -/

/-- The top-level listing call for a subscription returned without raising. -/
def listingOk (env : Env) (subscription_id : String) : Bool :=
  (list_workspaces env subscription_id).toOption.isSome

/-- All three child fetches of one workspace return without raising (with
the arguments the script passes: the resource group parsed from the
workspace id). -/
def childFetchesOk (env : Env) (subscription_id : String) (ws : Workspace) : Prop :=
  (∃ v, list_notebooks env subscription_id ws.name
      (parse_resource_group_from_id ws.id) = .ok v) ∧
  (∃ v, list_big_data_pools env subscription_id
      (parse_resource_group_from_id ws.id) ws.name = .ok v) ∧
  (∃ v, list_spark_job_definitions env ws.name = .ok v)

/-- No fetch for this subscription raises: the listing succeeds and every
listed workspace's child fetches succeed. -/
def allFetchesOk (env : Env) (subscription_id : String) : Prop :=
  ∃ wss, list_workspaces env subscription_id = .ok wss ∧
    ∀ ws ∈ wss, childFetchesOk env subscription_id ws

/-- The count/summary coherence of one per-workspace export record: each
`count` equals the length of the corresponding `details` list, and the
redundant `summary` block agrees with the nested blocks. -/
def countsOk (wd : WorkspaceData) : Prop :=
  wd.notebooks.count = wd.notebooks.details.length ∧
  wd.big_data_pools.count = wd.big_data_pools.details.length ∧
  wd.spark_job_definitions.count = wd.spark_job_definitions.details.length ∧
  wd.summary.spark_pools = wd.big_data_pools.count ∧
  wd.summary.notebooks = wd.notebooks.count ∧
  wd.summary.notebooks_by_runtime = wd.notebooks.by_runtime ∧
  wd.summary.spark_job_definitions = wd.spark_job_definitions.count ∧
  wd.summary.jobs_by_runtime = wd.spark_job_definitions.by_runtime

/-- Every bucket of the two `by_runtime` maps of one export record counts a
child exactly once: the map's counts sum to the corresponding `count`. -/
def runtimeSumsOk (wd : WorkspaceData) : Prop :=
  sumValues wd.notebooks.by_runtime = wd.notebooks.count ∧
  sumValues wd.spark_job_definitions.by_runtime = wd.spark_job_definitions.count

/-! ## Concrete fixtures used by witnesses and counterexamples -/

/-- A 200 response whose body is `{"value": items}`. -/
def okListResponse (items : List JVal) : Except String HttpResponse :=
  .ok { status := 200, body := .obj [("value", .arr items)] }

/-- A pool named `poolSmall` with Spark version 3.3. -/
def poolSmall : JVal :=
  .obj [("name", .str "poolSmall"),
        ("properties", .obj [("sparkVersion", .str "3.3")])]

/-- A pool named `poolLarge` with Spark version 3.4. -/
def poolLarge : JVal :=
  .obj [("name", .str "poolLarge"),
        ("properties", .obj [("sparkVersion", .str "3.4")])]

/-- A notebook referencing `poolSmall`. -/
def nbSmall : JVal :=
  .obj [("name", .str "nb-small"),
        ("properties", .obj [
          ("bigDataPool", .obj [
            ("referenceName", .str "poolSmall"),
            ("type", .str "BigDataPoolReference")])])]

/-- A notebook referencing `poolLarge`. -/
def nbLarge : JVal :=
  .obj [("name", .str "nb-large"),
        ("properties", .obj [
          ("bigDataPool", .obj [
            ("referenceName", .str "poolLarge"),
            ("type", .str "BigDataPoolReference")])])]

/-- A notebook with no pool reference. -/
def nbPlain : JVal :=
  .obj [("name", .str "nb-plain"), ("properties", .obj [])]

/-- A notebook referencing a pool name that exists in no pool list. -/
def nbDangling : JVal :=
  .obj [("name", .str "nb-dangling"),
        ("properties", .obj [
          ("bigDataPool", .obj [
            ("referenceName", .str "poolGone"),
            ("type", .str "BigDataPoolReference")])])]

/-- A job definition requiring Spark 3.4. -/
def jobOne : JVal :=
  .obj [("name", .str "job-one"),
        ("properties", .obj [
          ("requiredSparkVersion", .str "3.4"),
          ("jobProperties", .obj [("name", .str "job-one-props")])])]

/-- A workspace fixture. -/
def wsFix : Workspace :=
  { name := "ws-fix"
    id := "/subscriptions/sub-1/resourceGroups/rg-1/providers/Microsoft.Synapse/workspaces/ws-fix"
    location := "eastus"
    asDict := .obj [] }

/-- Environment where every fetch succeeds: one workspace with two pools,
three notebooks and one job definition. -/
def envOk : Env :=
  { workspacesResult := fun _ => .ok [wsFix]
    notebooksResponse := fun _ _ _ => okListResponse [nbSmall, nbLarge, nbPlain]
    poolsResponse := fun _ _ _ => okListResponse [poolSmall, poolLarge]
    jobsResponse := fun _ => okListResponse [jobOne] }

/-- Environment whose listing succeeds with an empty workspace list. -/
def envEmptyListing : Env :=
  { envOk with workspacesResult := fun _ => .ok [] }

/-- Environment whose top-level listing raises. -/
def envListingRaises : Env :=
  { envOk with workspacesResult := fun _ => .error "credential failure" }

/-- Environment whose listing succeeds but whose notebook fetch raises a
transport exception. -/
def envNotebookRaises : Env :=
  { envOk with notebooksResponse := fun _ _ _ => .error "connection reset" }

/-- Environment whose notebook fetch returns a non-success HTTP response
(404) without raising. -/
def envNotebooks404 : Env :=
  { envOk with
    notebooksResponse := fun _ _ _ => .ok { status := 404, body := .obj [] } }

/-- The single-subscription export produced over `envOk`. -/
def exOk : SubscriptionExport :=
  match write_to_json envOk "sub-1" with
  | .ok ex => ex
  | .error _ => default

/-- The one per-workspace record of `exOk`. -/
def wdOk : WorkspaceData := exOk.workspaces.headD default

/-- The consolidated export produced over `envOk` for one subscription. -/
def consOkExport : ConsolidatedExport := write_consolidated_json envOk ["sub-1"]

/-- The one subscription entry of `consOkExport`. -/
def consOkEntry : SubscriptionEntry := consOkExport.subscriptions.headD default

/-! ## Helper lemmas on the frequency-map primitives -/

theorem mapLookup_bumpCount (m : List (JVal × Nat)) (k k2 : JVal) :
    mapLookup (bumpCount m k) k2 =
      if k = k2 then some ((mapLookup m k2).getD 0 + 1) else mapLookup m k2 := by
  induction m with
  | nil =>
      by_cases h : k = k2 <;> simp [bumpCount, mapLookup, h]
  | cons hd tl ih =>
      obtain ⟨k3, n⟩ := hd
      by_cases h1 : k3 = k
      · subst h1
        by_cases h2 : k3 = k2 <;> simp [bumpCount, mapLookup, h2]
      · by_cases h2 : k3 = k2
        · subst h2
          have hk : ¬k = k3 := fun h => h1 h.symm
          simp [bumpCount, mapLookup, h1, hk]
        · simp [bumpCount, mapLookup, h1, h2, ih]

theorem sumValues_bumpCount (m : List (JVal × Nat)) (k : JVal) :
    sumValues (bumpCount m k) = sumValues m + 1 := by
  induction m with
  | nil => simp [bumpCount, sumValues]
  | cons hd tl ih =>
      obtain ⟨k3, n⟩ := hd
      by_cases h : k3 = k
      · simp [bumpCount, h, sumValues]
        omega
      · simp [bumpCount, h, sumValues] at ih ⊢
        omega

theorem mapCount_foldl_bump (f : JVal → JVal) (l : List JVal)
    (m : List (JVal × Nat)) (k : JVal) :
    (mapLookup (l.foldl (fun acc x => bumpCount acc (f x)) m) k).getD 0 =
      (mapLookup m k).getD 0 + (l.map f).count k := by
  induction l generalizing m with
  | nil => simp
  | cons x xs ih =>
      simp only [List.foldl_cons, List.map_cons]
      rw [ih, mapLookup_bumpCount]
      by_cases h : f x = k
      · simp [h, List.count_cons]
        omega
      · simp [h, List.count_cons]

theorem mapLookup_foldl_bump_eq_none (f : JVal → JVal) (l : List JVal)
    (m : List (JVal × Nat)) (k : JVal) :
    (mapLookup (l.foldl (fun acc x => bumpCount acc (f x)) m) k = none ↔
      (mapLookup m k = none ∧ (l.map f).count k = 0)) := by
  induction l generalizing m with
  | nil => simp
  | cons x xs ih =>
      simp only [List.foldl_cons, List.map_cons]
      rw [ih, mapLookup_bumpCount]
      by_cases h : f x = k
      · simp [h, List.count_cons]
      · simp [h, List.count_cons]

theorem sumValues_foldl_bump (f : JVal → JVal) (l : List JVal)
    (m : List (JVal × Nat)) :
    sumValues (l.foldl (fun acc x => bumpCount acc (f x)) m) =
      sumValues m + l.length := by
  induction l generalizing m with
  | nil => simp
  | cons x xs ih =>
      simp only [List.foldl_cons, List.length_cons]
      rw [ih, sumValues_bumpCount]
      omega

theorem option_nat_ext (a b : Option Nat) (h1 : a = none ↔ b = none)
    (h2 : a.getD 0 = b.getD 0) : a = b := by
  cases a <;> cases b <;> simp_all

/-! ## Helper lemmas on `mapME` and the fetch pipeline -/

theorem mapME_cons {α β : Type} (f : α → Except String β) (x : α) (xs : List α) :
    mapME f (x :: xs) =
      match f x with
      | .error e => .error e
      | .ok y =>
          match mapME f xs with
          | .error e => .error e
          | .ok ys => .ok (y :: ys) := by
  cases hfx : f x <;> cases hrest : mapME f xs <;>
    simp [mapME, hfx, hrest, Bind.bind, Except.bind, pure, Except.pure]

theorem mapME_ok_iff {α β : Type} (f : α → Except String β) (l : List α) :
    (∃ ys, mapME f l = .ok ys) ↔ ∀ x ∈ l, ∃ y, f x = .ok y := by
  induction l with
  | nil => simp [mapME]
  | cons x xs ih =>
      rw [mapME_cons]
      cases hfx : f x with
      | error e =>
          simp only [hfx]
          constructor
          · rintro ⟨ys, h⟩
            cases h
          · intro h
            rcases h x (by simp) with ⟨y, hy⟩
            rw [hfx] at hy
            cases hy
      | ok y =>
          cases hrest : mapME f xs with
          | error e =>
              simp only [hfx, hrest]
              constructor
              · rintro ⟨ys, h⟩
                cases h
              · intro h
                have : ∃ ys, mapME f xs = .ok ys := ih.mpr (fun z hz => h z (by simp [hz]))
                rcases this with ⟨ys, hys⟩
                rw [hrest] at hys
                cases hys
          | ok ys =>
              simp only [hfx, hrest]
              constructor
              · intro _ z hz
                rcases List.mem_cons.mp hz with rfl | hz2
                · exact ⟨y, hfx⟩
                · exact ih.mp ⟨ys, hrest⟩ z hz2
              · intro _
                exact ⟨y :: ys, rfl⟩

theorem mem_of_mapME_ok {α β : Type} (f : α → Except String β) :
    ∀ (l : List α) (ys : List β), mapME f l = .ok ys →
      ∀ y ∈ ys, ∃ x ∈ l, f x = .ok y := by
  intro l
  induction l with
  | nil =>
      intro ys h y hy
      simp only [mapME] at h
      cases h
      simp at hy
  | cons x xs ih =>
      intro ys h y hy
      rw [mapME_cons] at h
      cases hfx : f x with
      | error e => rw [hfx] at h; cases h
      | ok y0 =>
          rw [hfx] at h
          cases hrest : mapME f xs with
          | error e => rw [hrest] at h; cases h
          | ok ys0 =>
              rw [hrest] at h
              cases h
              rcases List.mem_cons.mp hy with rfl | hy2
              · exact ⟨x, by simp, hfx⟩
              · rcases ih ys0 hrest y hy2 with ⟨z, hz, hfz⟩
                exact ⟨z, by simp [hz], hfz⟩

theorem fetch_workspace_data_ok {env : Env} {subscription_id : String}
    {ws : Workspace} {wd : WorkspaceData}
    (h : fetch_workspace_data env subscription_id ws = .ok wd) :
    ∃ notebooks pools jobs,
      wd = build_workspace_data ws (parse_resource_group_from_id ws.id)
        notebooks pools jobs := by
  simp only [fetch_workspace_data] at h
  cases hn : list_notebooks env subscription_id ws.name
      (parse_resource_group_from_id ws.id) with
  | error e =>
      rw [hn] at h
      simp [Bind.bind, Except.bind] at h
  | ok notebooks =>
      rw [hn] at h
      cases hp : list_big_data_pools env subscription_id
          (parse_resource_group_from_id ws.id) ws.name with
      | error e =>
          rw [hp] at h
          simp [Bind.bind, Except.bind] at h
      | ok pools =>
          rw [hp] at h
          cases hj : list_spark_job_definitions env ws.name with
          | error e =>
              rw [hj] at h
              simp [Bind.bind, Except.bind] at h
          | ok jobs =>
              rw [hj] at h
              simp only [Bind.bind, Except.bind, pure, Except.pure] at h
              cases h
              exact ⟨notebooks, pools, jobs, rfl⟩

/-! ## Helper lemmas on list search -/

theorem find?_first_of_prefix {α : Type} (p : α → Bool) (l₁ l₂ : List α) (x : α)
    (h1 : ∀ q ∈ l₁, ¬p q) (hx : p x) :
    (l₁ ++ x :: l₂).find? p = some x := by
  induction l₁ with
  | nil => simp [List.find?_cons_of_pos _ hx]
  | cons b l ih =>
      have hb : ¬p b := h1 b (by simp)
      simp only [List.cons_append, List.find?_cons_of_neg _ hb]
      exact ih (fun q hq => h1 q (by simp [hq]))

theorem indexOf?_append_first (l₁ l₂ : List String) (a : String) (h : a ∉ l₁) :
    (l₁ ++ a :: l₂).indexOf? a = some l₁.length := by
  induction l₁ with
  | nil => simp [List.indexOf?_cons]
  | cons b l ih =>
      have hb : ¬(b == a) = true := by
        simp only [beq_iff_eq]
        intro hba
        exact h (by simp [hba])
      simp only [List.cons_append, List.indexOf?_cons]
      rw [if_neg hb, ih (fun hm => h (by simp [hm]))]
      simp

/-! ## Per-record coherence of the export builder -/

theorem countsOk_build (ws : Workspace) (rg : Option String)
    (notebooks pools jobs : List JVal) :
    countsOk (build_workspace_data ws rg notebooks pools jobs) := by
  simp [countsOk, build_workspace_data]

theorem runtimeSumsOk_build (ws : Workspace) (rg : Option String)
    (notebooks pools jobs : List JVal) :
    runtimeSumsOk (build_workspace_data ws rg notebooks pools jobs) := by
  refine ⟨?_, ?_⟩ <;>
    simp only [runtimeSumsOk, build_workspace_data,
      count_notebooks_by_runtime, count_jobs_by_runtime] <;>
    rw [sumValues_foldl_bump] <;> simp [sumValues]

/-! ## C3 -/

/-- C3 counterexample: with an empty pool list, a single notebook whose pool
reference (`poolGone`) matches no pool produces the frequency map
`{"No pool attached": 1}`; in particular the map holds no `"Unknown"` key,
refuting the claim that such a notebook aggregates under `"Unknown"`. -/
theorem unmatched_pool_reference_not_unknown :
    count_notebooks_by_runtime [] [nbDangling] = [(.str "No pool attached", 1)] ∧
    mapLookup (count_notebooks_by_runtime [] [nbDangling]) (.str "Unknown") = none := by
  exact ⟨rfl, rfl⟩

/-- C3 (amended): a notebook whose pool reference matches no pool name in
the workspace's fetched pool list is aggregated in the notebooks-by-runtime
frequency map under the `"No pool attached"` sentinel label (the `"Unknown"`
sentinel is reserved for a matched pool lacking a `sparkVersion`). -/
theorem unmatched_pool_reference_no_pool_attached
    (pools : List JVal) (nb : JVal)
    (htruthy : (notebook_pool_ref nb).toBool = true)
    (href : (notebook_pool_ref nb).hasKey "referenceName" = true)
    (hnomatch : ∀ p ∈ pools,
      ¬p.get "name" = (notebook_pool_ref nb).get "referenceName") :
    notebook_spark_version pools nb = .str "No pool attached" ∧
    count_notebooks_by_runtime pools [nb] = [(.str "No pool attached", 1)] := by
  have hfind : pools.find?
      (fun p => p.get "name" == (notebook_pool_ref nb).get "referenceName") = none := by
    rw [List.find?_eq_none]
    intro p hp
    simp only [beq_iff_eq]
    exact hnomatch p hp
  have hver : notebook_spark_version pools nb = .str "No pool attached" := by
    simp only [notebook_pool_ref] at htruthy href hfind
    simp only [notebook_spark_version]
    simp [htruthy, href, hfind]
  exact ⟨hver, by simp [count_notebooks_by_runtime, bumpCount, hver]⟩

/-- Witness for the amended C3 at a concrete input: `nbDangling` references
`poolGone`, which is not the name of `poolSmall`. -/
theorem unmatched_pool_reference_no_pool_attached_witness :
    notebook_spark_version [poolSmall] nbDangling = .str "No pool attached" ∧
    count_notebooks_by_runtime [poolSmall] [nbDangling] =
      [(.str "No pool attached", 1)] :=
  unmatched_pool_reference_no_pool_attached [poolSmall] nbDangling
    (by decide) (by decide) (by decide)

/-! ## C4 -/

/-- C4 counterexample: in the claim's own two-pool/three-notebook scenario
the computed frequency map is `{"3.3": 1, "3.4": 1, "No pool attached": 1}`;
the claimed key `"no pool attached"` (lower-case) is absent, so the claimed
map `{"3.3": 1, "3.4": 1, "no pool attached": 1}` is not the result. -/
theorem runtime_map_sentinel_spelling :
    count_notebooks_by_runtime [poolSmall, poolLarge] [nbSmall, nbLarge, nbPlain] =
      [(.str "3.3", 1), (.str "3.4", 1), (.str "No pool attached", 1)] ∧
    mapLookup
      (count_notebooks_by_runtime [poolSmall, poolLarge] [nbSmall, nbLarge, nbPlain])
      (.str "no pool attached") = none := by
  exact ⟨rfl, rfl⟩

/-- C4 (amended): a notebook's runtime resolves by exact-name lookup of its
referenced pool in the fetched pool list, first match winning; a notebook
with no pool reference gets the `"No pool attached"` sentinel (the code's
spelling of the claim's "no pool attached"), a matched pool lacking a
runtime field yields `"Unknown"`, and otherwise the matched pool's declared
version; the claim's concrete scenario yields
`{"3.3": 1, "3.4": 1, "No pool attached": 1}`. -/
theorem notebook_runtime_resolution :
    (∀ (pools : List JVal) (nb : JVal),
      ((notebook_pool_ref nb).toBool &&
        (notebook_pool_ref nb).hasKey "referenceName") = false →
      notebook_spark_version pools nb = .str "No pool attached") ∧
    (∀ (l₁ l₂ : List JVal) (p nb : JVal),
      ((notebook_pool_ref nb).toBool &&
        (notebook_pool_ref nb).hasKey "referenceName") = true →
      (∀ q ∈ l₁, ¬q.get "name" = (notebook_pool_ref nb).get "referenceName") →
      p.get "name" = (notebook_pool_ref nb).get "referenceName" →
      notebook_spark_version (l₁ ++ p :: l₂) nb =
        (p.getD "properties" (.obj [])).getD "sparkVersion" (.str "Unknown")) ∧
    count_notebooks_by_runtime [poolSmall, poolLarge] [nbSmall, nbLarge, nbPlain] =
      [(.str "3.3", 1), (.str "3.4", 1), (.str "No pool attached", 1)] := by
  refine ⟨?_, ?_, rfl⟩
  · intro pools nb hcond
    simp only [notebook_pool_ref] at hcond
    simp only [notebook_spark_version]
    simp [hcond]
  · intro l₁ l₂ p nb hcond hfirst hp
    have hfind : (l₁ ++ p :: l₂).find?
        (fun q => q.get "name" == (notebook_pool_ref nb).get "referenceName") =
          some p := by
      apply find?_first_of_prefix
      · intro q hq
        simp only [beq_iff_eq]
        exact hfirst q hq
      · simp only [beq_iff_eq]
        exact hp
    simp only [notebook_pool_ref] at hcond hfind
    simp only [notebook_spark_version]
    simp [hcond, hfind]

/-- Witness for the amended C4: its three parts applied at concrete inputs
(`nbPlain` has no reference; `nbLarge` matches `poolLarge` after passing
`poolSmall`). -/
theorem notebook_runtime_resolution_witness :
    notebook_spark_version [poolSmall, poolLarge] nbPlain =
      .str "No pool attached" ∧
    notebook_spark_version [poolSmall, poolLarge] nbLarge = .str "3.4" := by
  constructor
  · exact notebook_runtime_resolution.1 [poolSmall, poolLarge] nbPlain (by decide)
  · have h := notebook_runtime_resolution.2.1 [poolSmall] [] poolLarge nbLarge
      (by decide) (by decide) (by decide)
    simpa using h

/-! ## C9 -/

/-- C9: both per-workspace aggregations are order-independent — permuting
the notebook list (resp. the job list) leaves the label-to-count frequency
map unchanged as a mapping. -/
theorem by_runtime_order_independent
    (pools notebooks notebooks2 jobs jobs2 : List JVal)
    (hnb : notebooks.Perm notebooks2) (hjob : jobs.Perm jobs2) :
    (∀ k, mapLookup (count_notebooks_by_runtime pools notebooks) k =
      mapLookup (count_notebooks_by_runtime pools notebooks2) k) ∧
    (∀ k, mapLookup (count_jobs_by_runtime jobs) k =
      mapLookup (count_jobs_by_runtime jobs2) k) := by
  constructor
  · intro k
    apply option_nat_ext
    · simp only [count_notebooks_by_runtime]
      rw [mapLookup_foldl_bump_eq_none, mapLookup_foldl_bump_eq_none,
        (hnb.map (notebook_spark_version pools)).count_eq k]
    · simp only [count_notebooks_by_runtime]
      rw [mapCount_foldl_bump, mapCount_foldl_bump,
        (hnb.map (notebook_spark_version pools)).count_eq k]
  · intro k
    apply option_nat_ext
    · simp only [count_jobs_by_runtime]
      rw [mapLookup_foldl_bump_eq_none, mapLookup_foldl_bump_eq_none,
        (hjob.map job_runtime).count_eq k]
    · simp only [count_jobs_by_runtime]
      rw [mapCount_foldl_bump, mapCount_foldl_bump,
        (hjob.map job_runtime).count_eq k]

/-- Witness for C9 at a concrete permutation: swapping two notebooks leaves
the count of the `"3.3"` bucket unchanged. -/
theorem by_runtime_order_independent_witness :
    [nbSmall, nbLarge].Perm [nbLarge, nbSmall] ∧
    mapLookup (count_notebooks_by_runtime [poolSmall, poolLarge]
      [nbSmall, nbLarge]) (.str "3.3") =
    mapLookup (count_notebooks_by_runtime [poolSmall, poolLarge]
      [nbLarge, nbSmall]) (.str "3.3") := by
  have hperm : [nbSmall, nbLarge].Perm [nbLarge, nbSmall] :=
    List.Perm.swap nbLarge nbSmall []
  exact ⟨hperm,
    (by_runtime_order_independent [poolSmall, poolLarge] _ _ [jobOne] [jobOne]
      hperm (List.Perm.refl _)).1 (.str "3.3")⟩

/-! ## C5 -/

/-- C5 counterexample: a notebook whose `bigDataPool` block is present in
the input but empty produces the no-value marker, and its output equals the
output for a notebook with the block absent — so the block is not included
"exactly when present", and present-with-empty-fields is not
distinguishable from absent. -/
theorem empty_block_indistinguishable_from_absent :
    (extract_notebook_details (.obj [("name", .str "nb"),
        ("properties", .obj [("bigDataPool", .obj [])])])).get "big_data_pool" =
      .null ∧
    extract_notebook_details (.obj [("name", .str "nb"),
        ("properties", .obj [("bigDataPool", .obj [])])]) =
      extract_notebook_details (.obj [("name", .str "nb"),
        ("properties", .obj [])]) :=
  ⟨rfl, rfl⟩

/-- C5 (amended): each optional nested block is included in the extractor
output exactly when the corresponding input block is truthy — present and
non-empty; an absent or empty block projects to the explicit no-value
marker (never an empty structure), so a block present as an empty structure
is not distinguishable from an absent one.  (The job definition's `folder`
block projects to its `name` field, which is the no-value marker whenever
the block is absent or empty.) -/
theorem optional_blocks_truthiness (notebook pool_rec job_def : JVal) :
    ((extract_notebook_details notebook).get "big_data_pool" ≠ .null ↔
      ((notebook.getD "properties" (.obj [])).getD "bigDataPool"
        (.obj [])).toBool = true) ∧
    ((extract_notebook_details notebook).get "session_properties" ≠ .null ↔
      ((notebook.getD "properties" (.obj [])).getD "sessionProperties"
        (.obj [])).toBool = true) ∧
    ((extract_big_data_pool_details pool_rec).get "auto_scale" ≠ .null ↔
      ((pool_rec.getD "properties" (.obj [])).getD "autoScale"
        (.obj [])).toBool = true) ∧
    ((extract_big_data_pool_details pool_rec).get "auto_pause" ≠ .null ↔
      ((pool_rec.getD "properties" (.obj [])).getD "autoPause"
        (.obj [])).toBool = true) ∧
    ((extract_big_data_pool_details pool_rec).get "dynamic_executor_allocation" ≠ .null ↔
      ((pool_rec.getD "properties" (.obj [])).getD "dynamicExecutorAllocation"
        (.obj [])).toBool = true) ∧
    ((extract_big_data_pool_details pool_rec).get "library_requirements" ≠ .null ↔
      ((pool_rec.getD "properties" (.obj [])).getD "libraryRequirements"
        (.obj [])).toBool = true) ∧
    ((extract_spark_job_definition_details job_def).get "target_big_data_pool" ≠ .null ↔
      ((job_def.getD "properties" (.obj [])).getD "targetBigDataPool"
        (.obj [])).toBool = true) ∧
    (((job_def.getD "properties" (.obj [])).getD "folder"
        (.obj [])).toBool = false →
      (extract_spark_job_definition_details job_def).get "folder" = .null) ∧
    ((extract_spark_job_definition_details job_def).get "job_properties" ≠ .null ↔
      ((job_def.getD "properties" (.obj [])).getD "jobProperties"
        (.obj [])).toBool = true) := by
  refine ⟨?_, ?_, ?_, ?_, ?_, ?_, ?_, ?_, ?_⟩
  case refine_8 =>
    intro h
    simp only [JVal.getD] at h
    simp only [extract_spark_job_definition_details]
    simp [JVal.get, JVal.getD, JVal.lookupField, h]
  all_goals
    · simp only [extract_notebook_details, extract_big_data_pool_details,
        extract_spark_job_definition_details]
      simp [JVal.get, JVal.getD, JVal.lookupField]

/-- Witness for the amended C5: `nbSmall` has a truthy pool block, and
`jobOne` has no folder block, so its output folder field is the no-value
marker. -/
theorem optional_blocks_truthiness_witness :
    (extract_notebook_details nbSmall).get "big_data_pool" ≠ .null ∧
    (extract_spark_job_definition_details jobOne).get "folder" = .null := by
  have h := optional_blocks_truthiness nbSmall poolSmall jobOne
  exact ⟨h.1.mpr (by decide), h.2.2.2.2.2.2.2.1 (by decide)⟩

/-! ## C7 -/

/-- C7: resource-group parsing is total (the embedding returns an `Option`,
the two Python exceptions being caught in the source): when the split path
contains the marker segment `"resourceGroups"` (first occurrence) followed
by another segment, that following segment is returned; when the marker is
absent, `None` is returned. -/
theorem parse_resource_group_spec :
    (∀ (s g : String) (l₁ l₂ : List String),
      pySplitSlash s = l₁ ++ "resourceGroups" :: g :: l₂ →
      "resourceGroups" ∉ l₁ →
      parse_resource_group_from_id s = some g) ∧
    (∀ s : String, "resourceGroups" ∉ pySplitSlash s →
      parse_resource_group_from_id s = none) := by
  constructor
  · intro s g l₁ l₂ hsplit hnot
    simp only [parse_resource_group_from_id, hsplit]
    rw [indexOf?_append_first _ _ _ hnot]
    show (l₁ ++ "resourceGroups" :: g :: l₂).get? (l₁.length + 1) = some g
    rw [List.get?_append_right (by omega)]
    simp [List.get?]
  · intro s hnot
    simp only [parse_resource_group_from_id]
    have h : (pySplitSlash s).indexOf? "resourceGroups" = none := by
      rw [List.indexOf?_eq_none_iff]
      intro x hx
      simp only [beq_iff_eq]
      intro heq
      exact hnot (heq ▸ hx)
    rw [h]

/-- Witness for C7: a workspace id with the marker yields the following
segment, and a path without the marker yields `None`. -/
theorem parse_resource_group_spec_witness :
    (pySplitSlash "/subscriptions/sub-1/resourceGroups/rg-1/providers" =
      ["", "subscriptions", "sub-1"] ++
        "resourceGroups" :: "rg-1" :: ["providers"]) ∧
    parse_resource_group_from_id
      "/subscriptions/sub-1/resourceGroups/rg-1/providers" = some "rg-1" ∧
    parse_resource_group_from_id "no-marker-here" = none := by
  refine ⟨by decide, ?_, ?_⟩
  · exact parse_resource_group_spec.1 _ "rg-1"
      ["", "subscriptions", "sub-1"] ["providers"] (by decide) (by decide)
  · exact parse_resource_group_spec.2 "no-marker-here" (by decide)

/-! ## C8 -/

/-- C8: on a well-formed config object whose `subscription_ids` key holds a
non-empty list, the loader returns the config unchanged (hence exactly those
identifiers in file order); a missing key, a non-list value, or an empty
list raises a `ValidationError`; a parse failure raises a `ParseError`. -/
theorem load_config_spec :
    (∀ (fields : List (String × JVal)) (xs : List JVal),
      JVal.lookupField fields "subscription_ids" = some (.arr xs) →
      xs ≠ [] →
      load_config (.ok (.obj fields)) = .ok (.obj fields) ∧
      (JVal.obj fields).get "subscription_ids" = .arr xs) ∧
    (∀ fields : List (String × JVal),
      JVal.lookupField fields "subscription_ids" = none →
      ∃ msg, load_config (.ok (.obj fields)) = .error (.validationError msg)) ∧
    (∀ (fields : List (String × JVal)) (v : JVal),
      JVal.lookupField fields "subscription_ids" = some v →
      (∀ xs, v ≠ .arr xs) →
      ∃ msg, load_config (.ok (.obj fields)) = .error (.validationError msg)) ∧
    (∀ fields : List (String × JVal),
      JVal.lookupField fields "subscription_ids" = some (.arr []) →
      ∃ msg, load_config (.ok (.obj fields)) = .error (.validationError msg)) ∧
    (∀ e, load_config (.error e) = .error (.parseError e)) := by
  refine ⟨?_, ?_, ?_, ?_, fun e => rfl⟩
  · intro fields xs hlk hne
    constructor
    · simp [load_config, JVal.hasKey, JVal.get, JVal.getD, hlk, hne]
    · simp [JVal.get, JVal.getD, hlk]
  · intro fields hlk
    refine ⟨"Config file must contain subscription_ids key", ?_⟩
    simp [load_config, JVal.hasKey, hlk]
  · intro fields v hlk hnotarr
    refine ⟨"subscription_ids must be a list", ?_⟩
    simp only [load_config, JVal.hasKey, JVal.get, JVal.getD, hlk]
    cases v with
    | arr xs => exact absurd rfl (hnotarr xs)
    | null => simp
    | bool b => simp
    | num n => simp
    | str s => simp
    | obj fs => simp
  · intro fields hlk
    refine ⟨"At least one subscription ID must be provided", ?_⟩
    simp [load_config, JVal.hasKey, JVal.get, JVal.getD, hlk]

/-- Witness for C8: the five parts at concrete configs. -/
theorem load_config_spec_witness :
    load_config (.ok (.obj [("subscription_ids",
      .arr [.str "sub-1", .str "sub-2"])])) =
      .ok (.obj [("subscription_ids", .arr [.str "sub-1", .str "sub-2"])]) ∧
    (∃ msg, load_config (.ok (.obj [("other", .null)])) =
      .error (.validationError msg)) ∧
    (∃ msg, load_config (.ok (.obj [("subscription_ids", .str "sub-1")])) =
      .error (.validationError msg)) ∧
    (∃ msg, load_config (.ok (.obj [("subscription_ids", .arr [])])) =
      .error (.validationError msg)) ∧
    load_config (.error "bad json") = .error (.parseError "bad json") := by
  refine ⟨?_, ?_, ?_, ?_, ?_⟩
  · exact (load_config_spec.1
      [("subscription_ids", .arr [.str "sub-1", .str "sub-2"])]
      [.str "sub-1", .str "sub-2"] rfl (by decide)).1
  · exact load_config_spec.2.1 [("other", .null)] rfl
  · exact load_config_spec.2.2.1 [("subscription_ids", .str "sub-1")]
      (.str "sub-1") rfl (fun xs h => JVal.noConfusion h)
  · exact load_config_spec.2.2.2.1 [("subscription_ids", .arr [])] rfl
  · exact load_config_spec.2.2.2.2 "bad json"

/-! ## Fetcher-level lemmas: transport-ok responses never raise -/

theorem list_notebooks_ok_of_response (env : Env) (sid wsname : String)
    (rg : Option String) (r : HttpResponse)
    (hr : env.notebooksResponse sid wsname rg = .ok r) :
    ∃ v, list_notebooks env sid wsname rg = .ok v := by
  simp only [list_notebooks, hr]
  split <;> exact ⟨_, rfl⟩

theorem list_big_data_pools_ok_of_response (env : Env) (sid : String)
    (rg : Option String) (wsname : String) (r : HttpResponse)
    (hr : env.poolsResponse sid rg wsname = .ok r) :
    ∃ v, list_big_data_pools env sid rg wsname = .ok v := by
  simp only [list_big_data_pools, hr]
  split <;> exact ⟨_, rfl⟩

theorem list_spark_job_definitions_ok_of_response (env : Env)
    (wsname : String) (r : HttpResponse)
    (hr : env.jobsResponse wsname = .ok r) :
    ∃ v, list_spark_job_definitions env wsname = .ok v := by
  simp only [list_spark_job_definitions, hr]
  split <;> exact ⟨_, rfl⟩

/-! ## The per-workspace fetch chains succeed iff the three fetches do -/

theorem print_workspace_children_ok_iff (env : Env) (sid : String)
    (ws : Workspace) :
    (∃ u, print_workspace_children env sid ws = .ok u) ↔
    childFetchesOk env sid ws := by
  cases hN : list_notebooks env sid ws.name (parse_resource_group_from_id ws.id) <;>
  cases hP : list_big_data_pools env sid (parse_resource_group_from_id ws.id) ws.name <;>
  cases hJ : list_spark_job_definitions env ws.name <;>
    simp [print_workspace_children, childFetchesOk, hN, hP, hJ,
      Bind.bind, Except.bind, pure, Except.pure]

theorem summarize_workspace_line_ok_iff (env : Env) (sid : String)
    (ws : Workspace) :
    (∃ line, summarize_workspace_line env sid ws = .ok line) ↔
    childFetchesOk env sid ws := by
  cases hN : list_notebooks env sid ws.name (parse_resource_group_from_id ws.id) <;>
  cases hP : list_big_data_pools env sid (parse_resource_group_from_id ws.id) ws.name <;>
  cases hJ : list_spark_job_definitions env ws.name <;>
    simp [summarize_workspace_line, childFetchesOk, hN, hP, hJ,
      Bind.bind, Except.bind, pure, Except.pure]

theorem fetch_workspace_data_ok_iff (env : Env) (sid : String) (ws : Workspace) :
    (∃ wd, fetch_workspace_data env sid ws = .ok wd) ↔
    childFetchesOk env sid ws := by
  cases hN : list_notebooks env sid ws.name (parse_resource_group_from_id ws.id) <;>
  cases hP : list_big_data_pools env sid (parse_resource_group_from_id ws.id) ws.name <;>
  cases hJ : list_spark_job_definitions env ws.name <;>
    simp [fetch_workspace_data, childFetchesOk, hN, hP, hJ,
      Bind.bind, Except.bind, pure, Except.pure]

theorem summarize_ok_iff (env : Env) (sid : String) :
    (∃ lines, summarize_subscription env sid = .ok lines) ↔
    (∃ wss, list_workspaces env sid = .ok wss ∧
      ∀ ws ∈ wss, childFetchesOk env sid ws) := by
  simp only [summarize_subscription]
  cases hL : list_workspaces env sid with
  | error e =>
      simp [hL, Bind.bind, Except.bind]
  | ok wss =>
      simp only [hL, Bind.bind, Except.bind]
      rw [mapME_ok_iff]
      simp only [summarize_workspace_line_ok_iff]
      constructor
      · intro h
        exact ⟨wss, rfl, h⟩
      · rintro ⟨wss', hw, h⟩
        cases hw
        exact h

/-! ## C2 -/

/-- C2 counterexample: an account whose top-level listing call returns
normally with an empty workspace list is recorded as unsuccessful
(`process_subscription` returns `False` at the `if not workspaces` branch),
refuting the claimed "if and only if the listing did not raise". -/
theorem process_subscription_false_on_empty_listing :
    list_workspaces envEmptyListing "sub-1" = .ok [] ∧
    process_subscription envEmptyListing "sub-1" = false :=
  ⟨rfl, rfl⟩

/-- C2 (amended): an account is recorded as successful iff its top-level
listing call returned without raising a *non-empty* workspace list and no
subsequent fetch call raised during its processing (the detail-print loop
and the summary pass, which repeats the listing and child fetches);
non-success HTTP responses inside child fetchers (which return without
raising) never make the account unsuccessful. -/
theorem process_subscription_success_iff (env : Env) (sid : String) :
    (process_subscription env sid = true ↔
      ∃ wss, list_workspaces env sid = .ok wss ∧ wss ≠ [] ∧
        ∀ ws ∈ wss, childFetchesOk env sid ws) ∧
    (∀ wss, list_workspaces env sid = .ok wss → wss ≠ [] →
      (∀ ws ∈ wss,
        (∃ r, env.notebooksResponse sid ws.name
          (parse_resource_group_from_id ws.id) = .ok r) ∧
        (∃ r, env.poolsResponse sid
          (parse_resource_group_from_id ws.id) ws.name = .ok r) ∧
        (∃ r, env.jobsResponse ws.name = .ok r)) →
      process_subscription env sid = true) := by
  have main : process_subscription env sid = true ↔
      ∃ wss, list_workspaces env sid = .ok wss ∧ wss ≠ [] ∧
        ∀ ws ∈ wss, childFetchesOk env sid ws := by
    simp only [process_subscription]
    cases hL : list_workspaces env sid with
    | error e =>
        simp [hL, Bind.bind, Except.bind]
    | ok wss =>
        simp only [hL, Bind.bind, Except.bind]
        by_cases hempty : wss.isEmpty
        · have hnil : wss = [] := List.isEmpty_iff.mp hempty
          subst hnil
          simp [pure, Except.pure]
        · have hne : wss ≠ [] := fun h => hempty (by simp [h])
          simp only [hempty, Bool.false_eq_true, if_false]
          cases hM : mapME (print_workspace_children env sid) wss with
          | error e =>
              simp only [hM, Except.bind]
              constructor
              · intro h
                cases h
              · rintro ⟨wss', hw, _, hall⟩
                cases hw
                rcases (mapME_ok_iff _ wss).mpr (fun ws hws =>
                  (print_workspace_children_ok_iff env sid ws).mpr
                    (hall ws hws)) with ⟨us, hus⟩
                rw [hM] at hus
                cases hus
          | ok us =>
              simp only [hM, Except.bind]
              cases hS : summarize_subscription env sid with
              | error e =>
                  simp only [hS, Except.bind]
                  constructor
                  · intro h
                    cases h
                  · rintro ⟨wss', hw, _, hall⟩
                    cases hw
                    rcases (summarize_ok_iff env sid).mpr
                      ⟨wss, hL, hall⟩ with ⟨lines, hlines⟩
                    rw [hS] at hlines
                    cases hlines
              | ok lines =>
                  simp only [hS, Except.bind, pure, Except.pure]
                  constructor
                  · intro _
                    refine ⟨wss, rfl, hne, fun ws hws => ?_⟩
                    exact (print_workspace_children_ok_iff env sid ws).mp
                      ((mapME_ok_iff _ wss).mp ⟨us, hM⟩ ws hws)
                  · intro _
                    trivial
  refine ⟨main, ?_⟩
  intro wss hL hne hresp
  apply main.mpr
  refine ⟨wss, hL, hne, fun ws hws => ?_⟩
  rcases hresp ws hws with ⟨⟨r1, h1⟩, ⟨r2, h2⟩, ⟨r3, h3⟩⟩
  exact ⟨list_notebooks_ok_of_response env sid ws.name _ r1 h1,
    list_big_data_pools_ok_of_response env sid _ ws.name r2 h2,
    list_spark_job_definitions_ok_of_response env ws.name r3 h3⟩

/-- Witness for the amended C2: over `envNotebooks404` the notebook fetch
returns a non-success response (404, no raise) and the account is still
recorded successful. -/
theorem process_subscription_success_iff_witness :
    list_workspaces envNotebooks404 "sub-1" = .ok [wsFix] ∧
    envNotebooks404.notebooksResponse "sub-1" wsFix.name
      (parse_resource_group_from_id wsFix.id) =
      .ok { status := 404, body := .obj [] } ∧
    process_subscription envNotebooks404 "sub-1" = true := by
  refine ⟨rfl, rfl, ?_⟩
  exact (process_subscription_success_iff envNotebooks404 "sub-1").2 [wsFix] rfl
    (by simp) (fun ws _ => ⟨⟨_, rfl⟩, ⟨_, rfl⟩, ⟨_, rfl⟩⟩)

/-! ## Inversion of the export writers -/

theorem consolidated_foldl_eq (env : Env) (sids : List String)
    (acc : List SubscriptionEntry × Nat) :
    sids.foldl (fun acc subscription_id =>
      let r := process_consolidated_subscription env subscription_id
      (acc.1 ++ [r.1], acc.2 + r.2)) acc =
    (acc.1 ++ sids.map (fun sid => (process_consolidated_subscription env sid).1),
     acc.2 + (sids.map (fun sid => (process_consolidated_subscription env sid).2)).sum) := by
  induction sids generalizing acc with
  | nil => simp
  | cons s ss ih =>
      simp only [List.foldl_cons, List.map_cons, List.sum_cons]
      rw [ih]
      simp [List.append_assoc, Nat.add_assoc]

theorem consolidated_eq (env : Env) (sids : List String) :
    (write_consolidated_json env sids).subscriptions =
      sids.map (fun sid => (process_consolidated_subscription env sid).1) ∧
    (write_consolidated_json env sids).total_workspaces_across_all_subscriptions =
      (sids.map (fun sid => (process_consolidated_subscription env sid).2)).sum := by
  simp only [write_consolidated_json]
  rw [consolidated_foldl_eq]
  simp

theorem entry_workspaces_build (env : Env) (sid : String) (wd : WorkspaceData)
    (hwd : wd ∈ (process_consolidated_subscription env sid).1.workspaces) :
    ∃ ws rg notebooks pools jobs,
      wd = build_workspace_data ws rg notebooks pools jobs := by
  unfold process_consolidated_subscription at hwd
  split at hwd
  · simp at hwd
  · rename_i wss hL
    split at hwd
    · rename_i wdata hM
      simp only at hwd
      rcases mem_of_mapME_ok _ wss wdata hM wd hwd with ⟨ws, _, hok⟩
      rcases fetch_workspace_data_ok hok with ⟨n, p, j, rfl⟩
      exact ⟨ws, _, n, p, j, rfl⟩
    · simp at hwd

theorem mem_workspaces_single {env : Env} {sid : String}
    {ex : SubscriptionExport} {wd : WorkspaceData}
    (hex : write_to_json env sid = .ok ex) (hwd : wd ∈ ex.workspaces) :
    ∃ ws rg notebooks pools jobs,
      wd = build_workspace_data ws rg notebooks pools jobs := by
  simp only [write_to_json] at hex
  cases hL : list_workspaces env sid with
  | error e =>
      rw [hL] at hex
      simp [Bind.bind, Except.bind] at hex
  | ok wss =>
      rw [hL] at hex
      simp only [Bind.bind, Except.bind] at hex
      cases hM : mapME (fetch_workspace_data env sid) wss with
      | error e =>
          rw [hM] at hex
          cases hex
      | ok wdata =>
          rw [hM] at hex
          simp only [pure, Except.pure] at hex
          cases hex
          rcases mem_of_mapME_ok _ wss wdata hM wd hwd with ⟨ws, _, hok⟩
          rcases fetch_workspace_data_ok hok with ⟨n, p, j, rfl⟩
          exact ⟨ws, _, n, p, j, rfl⟩

/-! ## C1 -/

theorem sum_map_filter_eq {α : Type} (p : α → Bool) (f : α → Nat) (l : List α)
    (h : ∀ x ∈ l, p x = false → f x = 0) :
    ((l.filter p).map f).sum = (l.map f).sum := by
  induction l with
  | nil => simp
  | cons x xs ih =>
      have ihx := ih (fun y hy hpy => h y (by simp [hy]) hpy)
      by_cases hp : p x
      · rw [List.filter_cons, if_pos hp]
        simp [ihx]
      · have hfx : f x = 0 := h x (by simp) (by simpa using hp)
        rw [List.filter_cons, if_neg hp]
        simp [ihx, hfx]

theorem consolidated_entry_error_shape (env : Env) (sid : String) :
    (process_consolidated_subscription env sid).1.error.isSome = true →
    (process_consolidated_subscription env sid).1.total_workspaces = 0 ∧
    (process_consolidated_subscription env sid).1.workspaces = [] := by
  cases hL : list_workspaces env sid with
  | error e => simp [process_consolidated_subscription, hL]
  | ok wss =>
      cases hM : mapME (fetch_workspace_data env sid) wss with
      | ok wdata => simp [process_consolidated_subscription, hL, hM]
      | error e => simp [process_consolidated_subscription, hL, hM]

theorem consolidated_entry_of_good (env : Env) (sid : String)
    (hgood : ∀ wss, list_workspaces env sid = .ok wss →
      ∀ ws ∈ wss, childFetchesOk env sid ws) :
    (process_consolidated_subscription env sid).1.error.isNone =
      listingOk env sid ∧
    (process_consolidated_subscription env sid).2 =
      (process_consolidated_subscription env sid).1.total_workspaces := by
  cases hL : list_workspaces env sid with
  | error e => simp [process_consolidated_subscription, hL, listingOk, Except.toOption]
  | ok wss =>
      rcases (mapME_ok_iff (fetch_workspace_data env sid) wss).mpr
        (fun ws hws => (fetch_workspace_data_ok_iff env sid ws).mpr
          (hgood wss hL ws hws)) with ⟨wdata, hM⟩
      simp [process_consolidated_subscription, hL, hM, listingOk, Except.toOption]

/-- C1 counterexample: over an environment whose top-level listing succeeds
(with one workspace) but whose notebook fetch then raises, the single
subscription entry is an error record even though the listing did not
raise, and the grand total is 1 while the sum of `total_workspaces` over
the error-free entries is 0 — refuting both the claimed M-full/K−M-error
shape split by listing outcome and the claimed grand-total equation. -/
theorem consolidated_total_inflated_on_child_raise :
    listingOk envNotebookRaises "sub-1" = true ∧
    (write_consolidated_json envNotebookRaises ["sub-1"]).subscriptions.length
      = 1 ∧
    ((write_consolidated_json envNotebookRaises ["sub-1"]).subscriptions.filter
      (fun e => e.error.isNone)).length = 0 ∧
    (write_consolidated_json envNotebookRaises
      ["sub-1"]).total_workspaces_across_all_subscriptions = 1 ∧
    (((write_consolidated_json envNotebookRaises ["sub-1"]).subscriptions.filter
      (fun e => e.error.isNone)).map (fun e => e.total_workspaces)).sum = 0 :=
  ⟨rfl, rfl, rfl, rfl, rfl⟩

/-- C1 (amended): for a run of the consolidated export over K account ids
in which every failure happens at the top-level listing call (no child
fetch of a listed workspace raises), the `subscriptions` list has exactly K
entries; the error-free entries correspond exactly to the accounts whose
listing succeeded (M of them, so K−M error records); every error record
carries `total_workspaces = 0` and `workspaces = []`; and
`total_workspaces_across_all_subscriptions` equals the sum of
`total_workspaces` over the error-free entries. -/
theorem consolidated_export_shape (env : Env) (sids : List String)
    (H : ∀ sid ∈ sids, ∀ wss, list_workspaces env sid = .ok wss →
      ∀ ws ∈ wss, childFetchesOk env sid ws) :
    (write_consolidated_json env sids).subscriptions.length = sids.length ∧
    ((write_consolidated_json env sids).subscriptions.filter
      (fun e => e.error.isNone)).length =
      (sids.filter (fun sid => listingOk env sid)).length ∧
    (∀ entry ∈ (write_consolidated_json env sids).subscriptions,
      entry.error.isSome = true →
      entry.total_workspaces = 0 ∧ entry.workspaces = []) ∧
    (write_consolidated_json env sids).total_workspaces_across_all_subscriptions =
      (((write_consolidated_json env sids).subscriptions.filter
        (fun e => e.error.isNone)).map (fun e => e.total_workspaces)).sum := by
  obtain ⟨hsubs, htot⟩ := consolidated_eq env sids
  refine ⟨?_, ?_, ?_, ?_⟩
  · rw [hsubs]
    simp
  · rw [hsubs, List.filter_map, List.length_map]
    refine congrArg List.length (List.filter_congr ?_)
    intro sid hsid
    simp only [Function.comp]
    exact (consolidated_entry_of_good env sid (H sid hsid)).1
  · intro entry hentry hsome
    rw [hsubs] at hentry
    rcases List.mem_map.mp hentry with ⟨sid, hsid, rfl⟩
    exact consolidated_entry_error_shape env sid hsome
  · rw [htot, hsubs, List.filter_map, List.map_map]
    have hsnd : sids.map
        (fun sid => (process_consolidated_subscription env sid).2) =
        sids.map (fun sid =>
          (process_consolidated_subscription env sid).1.total_workspaces) :=
      List.map_congr_left (fun sid hsid =>
        (consolidated_entry_of_good env sid (H sid hsid)).2)
    rw [hsnd]
    refine (sum_map_filter_eq _ _ sids ?_).symm
    intro sid _ hfalse
    simp only [Function.comp] at hfalse
    have hsome : (process_consolidated_subscription env sid).1.error.isSome
        = true := by
      cases hE : (process_consolidated_subscription env sid).1.error with
      | none => rw [hE] at hfalse; cases hfalse
      | some e => rfl
    exact (consolidated_entry_error_shape env sid hsome).1

/-- Witness for the amended C1: two accounts over `envOk`, where neither
the listings nor any child fetch raises. -/
theorem consolidated_export_shape_witness :
    (write_consolidated_json envOk ["sub-1", "sub-2"]).subscriptions.length
      = 2 ∧
    (write_consolidated_json envOk
      ["sub-1", "sub-2"]).total_workspaces_across_all_subscriptions =
      (((write_consolidated_json envOk
        ["sub-1", "sub-2"]).subscriptions.filter
        (fun e => e.error.isNone)).map (fun e => e.total_workspaces)).sum := by
  have H : ∀ sid ∈ ["sub-1", "sub-2"], ∀ wss,
      list_workspaces envOk sid = .ok wss →
      ∀ ws ∈ wss, childFetchesOk envOk sid ws := by
    intro sid _ wss hL ws _
    exact ⟨⟨_, rfl⟩, ⟨_, rfl⟩, ⟨_, rfl⟩⟩
  have h := consolidated_export_shape envOk ["sub-1", "sub-2"] H
  exact ⟨h.1, h.2.2.2⟩

/-! ## C6 -/

/-- C6: in every per-workspace record of both JSON exports, each `count`
field equals the length of the corresponding `details` list, and the
redundant `summary` block's counts and frequency maps equal the
corresponding values of the nested notebooks/pools/jobs blocks. -/
theorem export_counts_coherent (env : Env) (sid : String) (sids : List String) :
    (∀ ex, write_to_json env sid = .ok ex → ∀ wd ∈ ex.workspaces, countsOk wd) ∧
    (∀ entry ∈ (write_consolidated_json env sids).subscriptions,
      ∀ wd ∈ entry.workspaces, countsOk wd) := by
  constructor
  · intro ex hex wd hwd
    rcases mem_workspaces_single hex hwd with ⟨ws, rg, n, p, j, rfl⟩
    exact countsOk_build ws rg n p j
  · intro entry hentry wd hwd
    rw [(consolidated_eq env sids).1] at hentry
    rcases List.mem_map.mp hentry with ⟨sid2, _, rfl⟩
    rcases entry_workspaces_build env sid2 wd hwd with ⟨ws, rg, n, p, j, rfl⟩
    exact countsOk_build ws rg n p j

/-- Witness for C6: the concrete export over `envOk` and its one workspace
record. -/
theorem export_counts_coherent_witness :
    write_to_json envOk "sub-1" = .ok exOk ∧
    wdOk ∈ exOk.workspaces ∧ countsOk wdOk := by
  have h2 : exOk.workspaces = [wdOk] := rfl
  have hmem : wdOk ∈ exOk.workspaces := by
    rw [h2]; exact List.mem_singleton.mpr rfl
  exact ⟨rfl, hmem,
    (export_counts_coherent envOk "sub-1" []).1 exOk rfl wdOk hmem⟩

/-! ## C10 -/

/-- C10: in every per-workspace record of both JSON exports, the counts of
the notebooks `by_runtime` map sum to the notebooks `count`, and the counts
of the jobs `by_runtime` map sum to the spark-job-definitions `count`. -/
theorem by_runtime_sums_to_count (env : Env) (sid : String) (sids : List String) :
    (∀ ex, write_to_json env sid = .ok ex →
      ∀ wd ∈ ex.workspaces, runtimeSumsOk wd) ∧
    (∀ entry ∈ (write_consolidated_json env sids).subscriptions,
      ∀ wd ∈ entry.workspaces, runtimeSumsOk wd) := by
  constructor
  · intro ex hex wd hwd
    rcases mem_workspaces_single hex hwd with ⟨ws, rg, n, p, j, rfl⟩
    exact runtimeSumsOk_build ws rg n p j
  · intro entry hentry wd hwd
    rw [(consolidated_eq env sids).1] at hentry
    rcases List.mem_map.mp hentry with ⟨sid2, _, rfl⟩
    rcases entry_workspaces_build env sid2 wd hwd with ⟨ws, rg, n, p, j, rfl⟩
    exact runtimeSumsOk_build ws rg n p j

/-- Witness for C10: the consolidated export over `envOk` and its one
workspace record. -/
theorem by_runtime_sums_to_count_witness :
    consOkEntry ∈ (write_consolidated_json envOk ["sub-1"]).subscriptions ∧
    wdOk ∈ consOkEntry.workspaces ∧ runtimeSumsOk wdOk := by
  have h1 : (write_consolidated_json envOk ["sub-1"]).subscriptions =
      [consOkEntry] := rfl
  have h2 : consOkEntry.workspaces = [wdOk] := rfl
  have hmem1 : consOkEntry ∈ (write_consolidated_json envOk ["sub-1"]).subscriptions := by
    rw [h1]; exact List.mem_singleton.mpr rfl
  have hmem2 : wdOk ∈ consOkEntry.workspaces := by
    rw [h2]; exact List.mem_singleton.mpr rfl
  exact ⟨hmem1, hmem2,
    (by_runtime_sums_to_count envOk "sub-1" ["sub-1"]).2 consOkEntry
      hmem1 wdOk hmem2⟩

end SynapseMeta
